import Mathlib

/-!
Verification development for the LlM-Api-Open (LMAO) session/streaming core.

Shallow embedding of:
  * `src/lmao/module_wrapper.py`  (status state machine, `ModuleWrapper`)
  * `src/lmao/chatgpt/chatgpt_api.py` and `src/lmao/ms_copilot/ms_copilot_api.py`
    (session start, streaming readers, refresher pause/resume, refresher loop)
  * the `/api/status` lookup in `src/lmao/external_api.py`

Browser/DOM interaction is the external collaborator: every call into the
driver is modelled as an input (an observation list or an `Except` outcome)
supplied to the embedded function.
-/

namespace Lmao

/-! ### Status codes (module_wrapper.py lines 34-41) -/

def STATUS_NOT_INITIALIZED : Int := 0
def STATUS_INITIALIZING : Int := 1
def STATUS_IDLE : Int := 2
def STATUS_BUSY : Int := 3
def STATUS_STOPPING : Int := 4
def STATUS_FAILED : Int := -1

def STATUS_TO_STR : List String :=
  [("Not initialized"), ("Initializing"), ("Idle"), ("Busy"), ("Stopping"), ("Failed")]

/-- Python list subscript semantics: `l[i]` supports negative indices
(`l[-k]` is `l[len l - k]`); out-of-range raises, modelled as `none`.
`external_api.py` evaluates `STATUS_TO_STR[module.status]`. -/
def pyListGet (l : List String) (i : Int) : Option String :=
  if 0 ≤ i then l.get? i.toNat
  else if (-i).toNat ≤ l.length then l.get? (l.length - (-i).toNat)
  else none

/-! ### ModuleWrapper state machine (module_wrapper.py) -/

structure MWState where
  status : Int
  error : Option String
  deriving Repr, DecidableEq

/-- Models `ModuleWrapper.__init__` (lines 64-65): status `NOT_INITIALIZED`, no error. -/
def mwNew : MWState := { status := STATUS_NOT_INITIALIZED, error := none }

/-- Models `_initialization_thread` inside `ModuleWrapper.initialize` (lines 82-93):
sets `INITIALIZING`, runs `session_start` (outcome supplied by the
environment), then `IDLE` on success or `FAILED` + `error` on exception.
Note: `self.error` is not cleared on success. -/
def mwInitialize (s : MWState) (sessionStartResult : Except String Unit) : MWState :=
  let s1 := { s with status := STATUS_INITIALIZING }
  match sessionStartResult with
  | Except.ok _ => { s1 with status := STATUS_IDLE }
  | Except.error e => { s1 with status := STATUS_FAILED, error := some e }

/-- Models `_closing_thread` inside `ModuleWrapper.close` (lines 109-120). -/
def mwClose (s : MWState) (sessionCloseResult : Except String Unit) : MWState :=
  let s1 := { s with status := STATUS_STOPPING }
  match sessionCloseResult with
  | Except.ok _ => { s1 with status := STATUS_NOT_INITIALIZED }
  | Except.error e => { s1 with status := STATUS_FAILED, error := some e }

/-- First statement of `ModuleWrapper.ask` (line 165): `self.status = STATUS_BUSY`. -/
def mwAskEnter (s : MWState) : MWState := { s with status := STATUS_BUSY }

/-- Models `ModuleWrapper.ask` (lines 165-193): sets `BUSY`, runs the module body
(`prompt_send` + re-yield of `response_read_stream`, outcome supplied by the
environment), and in a `finally` block restores `IDLE`; exceptions propagate
to the caller unchanged and `self.error` is never touched. -/
def mwAsk (s : MWState) (body : Except String Unit) : MWState × Except String Unit :=
  let s1 := mwAskEnter s
  ({ s1 with status := STATUS_IDLE }, body)

/-- First statement of `ModuleWrapper.response_stop` (line 201). -/
def mwStopEnter (s : MWState) : MWState := { s with status := STATUS_BUSY }

/-- Models `ModuleWrapper.response_stop` (lines 195-211): sets `BUSY`; on success sets
`IDLE`; on exception sets `IDLE` and re-raises. `self.error` is never touched. -/
def mwResponseStop (s : MWState) (body : Except String Unit) : MWState × Except String Unit :=
  let s1 := mwStopEnter s
  match body with
  | Except.ok _ => ({ s1 with status := STATUS_IDLE }, Except.ok ())
  | Except.error e => ({ s1 with status := STATUS_IDLE }, Except.error e)

/-- First statement of `ModuleWrapper.delete_conversation` (line 225). -/
def mwDeleteEnter (s : MWState) : MWState := { s with status := STATUS_BUSY }

/-- Models `ModuleWrapper.delete_conversation` (lines 213-231): sets `BUSY`, runs
`conversation_delete`, and in a `finally` block restores `IDLE`. -/
def mwDeleteConversation (s : MWState) (body : Except String Unit) :
    MWState × Except String Unit :=
  let s1 := mwDeleteEnter s
  ({ s1 with status := STATUS_IDLE }, body)

/-! ### Backend session state (chatgpt_api.py / ms_copilot_api.py fields) -/

structure Sess where
  /-- Models `self.driver is not None` -/
  driver : Bool
  /-- Models `self._refresher_thread is not None` -/
  refresherThread : Bool
  /-- Models `self._refresher_running_flag` -/
  running : Bool
  /-- Models `self._refresher_dont_refresh_flag` -/
  dontRefresh : Bool
  /-- Models `self._refresher_busy` -/
  busy : Bool
  /-- Models `self._refresher_timer` (seconds; `time.time()` values supplied as inputs) -/
  timer : Nat
  /-- Models `self._conversation_new` (ms_copilot only) -/
  conversationNew : Bool
  deriving Repr, DecidableEq

/-- Models `session_start` of both adapters (chatgpt_api.py 246-393,
ms_copilot_api.py 216-350): if a driver already exists, raise
"previous one is not closed"; otherwise run the body (cookies, browser
launch, page load — outcome supplied by the environment).  On success the
driver exists and, when no refresher thread exists and
`auto_refresh_interval > 0`, the refresher is armed (running flag set,
pause flag cleared, timer set to now, thread started).  On any body
exception the driver is quit best-effort, `self.driver = None`, and the
exception is re-raised. -/
def sessionStartEffect (s : Sess) (interval : Int) (now : Nat)
    (body : Except String Unit) : Sess × Except String Unit :=
  if s.driver then
    (s, Except.error
      ("Error starting new session! Previous one is not closed! Please run session_close()"))
  else
    match body with
    | Except.ok _ =>
      let s1 := { s with driver := true }
      if ¬ s1.refresherThread ∧ 0 < interval then
        ({ s1 with running := true, dontRefresh := false, timer := now,
                   refresherThread := true }, Except.ok ())
      else (s1, Except.ok ())
    | Except.error e => ({ s with driver := false }, Except.error e)

/-- Models `session_close(from_refresher=True)` as called from the refresher's
exception handler, wrapped in `try/except` (ms_copilot_api.py 1026-1029,
chatgpt_api.py 985-988): the running flag and thread are untouched;
`driver.quit()` then `self.driver = None`; if `quit` (or the initial
no-session check) raises, the handler swallows it and `driver` is unchanged.
`quitOk` says whether `driver.quit()` succeeded. -/
def sessionCloseFromRefresher (s : Sess) (quitOk : Bool) : Sess :=
  if s.driver ∧ quitOk then { s with driver := false } else s

/-- State effect of `_refresher_pause_resume` (chatgpt_api.py 893-916,
ms_copilot_api.py 945-968).  The `pause=True` branch first busy-waits until
`self._refresher_busy` clears (no state effect; its interleaving behaviour
is modelled separately by `prFgStep`), then sets the pause flag; the
`pause=False` branch clears it; `reset_time=True` sets the timer to now. -/
def refresherPauseResume (s : Sess) (pause : Bool) (resetTime : Bool) (now : Nat) : Sess :=
  let s1 := if pause then { s with dontRefresh := true } else { s with dontRefresh := false }
  if resetTime then { s1 with timer := now } else s1

/-! ### Streaming readers

How a stream run terminates. The Python generators poll forever until the
response finishes or an exception escapes; here a finite observation list is
the modelled window of polls, and `outOfPolls` records that the window ended
with the generator still looping. `abandoned` is the consumer closing the
generator at a yield point (`GeneratorExit`). -/

inductive StreamExit where
  | done
  | failed (e : String)
  | abandoned
  | outOfPolls
  /-- an exception raised inside the generator's `finally` block replaced
  whatever outcome the loop had; the consumer sees this exception -/
  | failedInCleanup (e : String)
  deriving Repr, DecidableEq

/-- Substring test on char lists (Python's `in` on strings). -/
def listContainsSub (needle : List Char) : List Char → Bool
  | [] => needle.isEmpty
  | c :: t => needle.isPrefixOf (c :: t) || listContainsSub needle t

/-- Python `needle in hay` for strings. -/
def strContainsSub (hay needle : String) : Bool :=
  listContainsSub needle.toList hay.toList

/-- Python `s.startswith(pre)`. -/
def strStartsWith (s pre : String) : Bool :=
  pre.toList.isPrefixOf s.toList

def isWsChar (c : Char) : Bool :=
  (c == ' ') || (c == '\n') || (c == '\t') || (c == '\r')

/-- Python `s.strip()`: remove leading and trailing whitespace. -/
def pyStrip (s : String) : String :=
  String.mk (((s.toList.dropWhile isWsChar).reverse.dropWhile isWsChar).reverse)

/-- Result of `_assistant_get_last_message` (chatgpt_api.py): either `null`
(no valid assistant message) or message id, container class name, and inner
HTML.  One entry per poll cycle of `response_read_stream`. -/
structure CgMsg where
  messageId : String
  className : String
  innerHtml : String
  deriving Repr, DecidableEq

/-- One ChatGPT poll observation: `none` models the script returning `null`. -/
abbrev CgObs := Option CgMsg

/-- Response classification in `ChatGPTApi.response_read_stream`
(chatgpt_api.py 569-575): `result-streaming` prefix → in progress;
`markdown` prefix → finished; otherwise unknown unless the class contains
`result-thinking` (in progress). -/
def cgClassify (m : CgMsg) : Except String Bool :=
  if strStartsWith m.className ("result-streaming") then Except.ok false
  else if strStartsWith m.className ("markdown") then Except.ok true
  else if ¬ strContainsSub m.className ("result-thinking") then
    Except.error ("Unknown response type: " ++ m.className)
  else Except.ok false

structure CgSnap where
  finished : Bool
  response : String
  conversationId : String
  messageId : String
  deriving Repr, DecidableEq

/-- One yielded ChatGPT snapshot (chatgpt_api.py 577-615).  The
HTML→Markdown conversion (`markdownify`) is the out-of-scope collaborator;
the final `.strip()` is kept. -/
def cgSnapOf (convId : String) (fin : Bool) (m : CgMsg) : CgSnap :=
  { finished := fin, response := pyStrip m.innerHtml,
    conversationId := convId, messageId := m.messageId }

/-- Consumer appetite bookkeeping: `some a` means the consumer closes the
generator after receiving `a` more snapshots; `none` never closes early. -/
def appetiteSpent : Option Nat → Bool
  | some a => a ≤ 1
  | none => false

def appetiteNext : Option Nat → Option Nat
  | some a => some (a - 1)
  | none => none

/-- The `while not finished` loop of `ChatGPTApi.response_read_stream`
(chatgpt_api.py 561-621): each cycle polls the last assistant message
(`null` raises "No valid assistant messages found"), classifies it, yields a
snapshot, and exits after yielding a finished one.  A consumer that closes
the generator at a yield ends the run as `abandoned`. -/
def cgLoop (convId : String) : List CgObs → Option Nat → List CgSnap × StreamExit
  | [], _ => ([], StreamExit.outOfPolls)
  | none :: _, _ => ([], StreamExit.failed ("No valid assistant messages found"))
  | some m :: rest, appetite =>
    match cgClassify m with
    | Except.error e => ([], StreamExit.failed e)
    | Except.ok fin =>
      let snap := cgSnapOf convId fin m
      if fin then ([snap], StreamExit.done)
      else if appetiteSpent appetite then ([snap], StreamExit.abandoned)
      else
        let r := cgLoop convId rest (appetiteNext appetite)
        (snap :: r.1, r.2)

/-- Models `ChatGPTApi.response_read_stream` (chatgpt_api.py 537-632) including its
session-state effects: the no-session guard (before the `try`, so it touches
no flags), the refresher pause on entry, the resume + timer reset on the
success path (line 628) and again in the `finally` block (line 632), which
runs on every exit from the `try` body. -/
def cgResponseReadStream (s : Sess) (convId : String) (now : Nat)
    (obs : List CgObs) (appetite : Option Nat) : List CgSnap × StreamExit × Sess :=
  if ¬ s.driver then
    ([], StreamExit.failed ("No opened session! Please call session_start() first"), s)
  else
    let s1 := refresherPauseResume s true false now
    let r := cgLoop convId obs appetite
    let s2 := if r.2 = StreamExit.done then refresherPauseResume s1 false true now else s1
    let s3 := refresherPauseResume s2 false true now
    (r.1, r.2, s3)

/-- One MS Copilot poll observation: timestamp (`time.time()`), the
`actionHandle('finished')` result (`finishedErr` models the `{"error": ...}`
dict, treated as not finished), the parsed text, and suggestions. -/
structure MsPoll where
  t : Nat
  finishedFlag : Bool
  finishedErr : Bool
  text : String
  suggestions : List String
  deriving Repr, DecidableEq

/-- A poll that raises (driver/script error) aborts the stream. -/
abbrev MsObs := Except String MsPoll

/-- Models `_WAIT_AFTER_FINISH = 3` (ms_copilot_api.py line 121): seconds the
finished flag must hold before the stream reports `finished=True`. -/
def WAIT_AFTER_FINISH : Nat := 3

structure MsSnap where
  finished : Bool
  conversationId : String
  response : String
  suggestions : List String
  deriving Repr, DecidableEq

/-- The debounce step of `MSCopilotApi.response_read_stream`
(ms_copilot_api.py 592-609): reset the timer (`0` = unset) when the flag
reverts, start it at the current time when the flag first holds, and report
finished once `time.time() - finished_timer >= _WAIT_AFTER_FINISH`.
Returns the updated timer and the `finished` value for this cycle. -/
def msDebounce (timer t : Nat) (f : Bool) : Nat × Bool :=
  let timer1 := if ¬ f ∧ timer ≠ 0 then 0 else timer
  let timer2 := if f ∧ timer1 = 0 then t else timer1
  (timer2, f && decide (WAIT_AFTER_FINISH ≤ t - timer2))

/-- Effective finished flag of a poll (ms_copilot_api.py 587-590): an error
dict from the parser is logged and treated as not finished. -/
def msFlag : MsObs → Bool
  | Except.ok p => if p.finishedErr then false else p.finishedFlag
  | Except.error _ => false

def msTime : MsObs → Nat
  | Except.ok p => p.t
  | Except.error _ => 0

/-- The `while not finished` loop of `MSCopilotApi.response_read_stream`
(ms_copilot_api.py 579-676): each cycle parses the conversation (an
exception aborts the stream), runs the debounce step, yields a snapshot,
and exits after yielding a finished one. -/
def msLoop (convId : String) (timer : Nat) :
    List MsObs → Option Nat → List MsSnap × StreamExit
  | [], _ => ([], StreamExit.outOfPolls)
  | Except.error e :: _, _ => ([], StreamExit.failed e)
  | Except.ok p :: rest, appetite =>
    let f := msFlag (Except.ok p)
    let d := msDebounce timer p.t f
    let snap : MsSnap :=
      { finished := d.2, conversationId := convId,
        response := pyStrip p.text, suggestions := p.suggestions }
    if d.2 then ([snap], StreamExit.done)
    else if appetiteSpent appetite then ([snap], StreamExit.abandoned)
    else
      let r := msLoop convId d.1 rest (appetiteNext appetite)
      (snap :: r.1, r.2)

/-- Outcome of the `self._load_or_refresh()` call inside the `finally`
block of `MSCopilotApi.response_read_stream` (ms_copilot_api.py line 688,
reached only when `self._conversation_new` is set).  `_load_or_refresh`
(860-925) either returns a `bool` (`ok` — covers both `True` and a
retries-exhausted `False`), or raises: its retry handler calls
`self.session_close(from_refresher=True)` and `self.session_start()`
unguarded (915-919), and an exception from either propagates.
`driverAfter` is the driver state that propagating path leaves behind
(unchanged when `session_close` raised, `None` when `session_start`
raised, since `session_start` nulls the driver before re-raising). -/
inductive MsFinallyOutcome where
  | ok
  | raised (e : String) (driverAfter : Bool)
  deriving Repr, DecidableEq

/-- Models `MSCopilotApi.response_read_stream` (ms_copilot_api.py 546-692)
including its session-state effects: the no-session guard, the refresher
pause on entry, and the `finally` block (682-692).  The `finally` block: if
`self._conversation_new`, rename the conversation (guarded,
`raise_on_error=False`, cannot raise) and call `self._load_or_refresh()` —
if that raises, the exception propagates out of the `finally`, so both
`self._conversation_new = False` (line 689) and the refresher resume with
timer reset (line 692) are skipped and the consumer sees the cleanup
exception; otherwise clear `_conversation_new` and resume the refresher
with the timer reset. -/
def msResponseReadStream (s : Sess) (convId : String) (now : Nat)
    (obs : List MsObs) (appetite : Option Nat) (cleanup : MsFinallyOutcome) :
    List MsSnap × StreamExit × Sess :=
  if ¬ s.driver then
    ([], StreamExit.failed ("No opened session! Please call session_start() first"), s)
  else
    let s1 := refresherPauseResume s true false now
    let r := msLoop convId 0 obs appetite
    if s1.conversationNew then
      match cleanup with
      | MsFinallyOutcome.ok =>
        let s2 := { s1 with conversationNew := false }
        (r.1, r.2, refresherPauseResume s2 false true now)
      | MsFinallyOutcome.raised e driverAfter =>
        (r.1, StreamExit.failedInCleanup e, { s1 with driver := driverAfter })
    else
      let s2 := { s1 with conversationNew := false }
      (r.1, r.2, refresherPauseResume s2 false true now)

/-! ### Refresher loop (`_refresher`, chatgpt_api.py 918-1007,
ms_copilot_api.py 970-1047; both bodies are structurally identical) -/

/-- Environment inputs consumed by one refresher iteration. -/
structure RefInput where
  /-- Models `time.time()` at this cycle -/
  now : Nat
  /-- outcome of the page refresh + cookie save when attempted -/
  refreshResult : Except String Unit
  /-- a `SystemExit`/`KeyboardInterrupt` arrives during this cycle's try body -/
  bodyInterrupt : Bool
  /-- Models `driver.quit()` succeeds inside the handler's `session_close` -/
  closeOk : Bool
  /-- interrupt arrives during the handler's `time.sleep(_RESTART_DELAY)` -/
  restartSleepInterrupt : Bool
  /-- body outcome of the handler's `session_start()` attempt -/
  restartResult : Except String Unit
  deriving Repr

inductive RefStop where
  /-- Models `break` on `SystemExit`/`KeyboardInterrupt` -/
  | interrupted
  /-- Models `auto_refresh_interval <= 0`: running flag cleared, `break` -/
  | intervalOff
  /-- Models `while self._refresher_running_flag` found the flag cleared -/
  | runningCleared
  deriving Repr, DecidableEq

/-- One iteration of the refresher's `while` body.  In order: clear the busy
flag; stop when `auto_refresh_interval <= 0`; an interrupt anywhere in the
try body breaks the loop; when the guard (driver present, not paused, timer
elapsed) holds, set busy, stamp the timer, and refresh — on an exception the
handler closes the session (running flag untouched, busy flag left set),
sleeps `_RESTART_DELAY` (an interrupt there breaks), then attempts
`session_start()`, swallowing its errors; the loop then continues. -/
def refresherIter (interval : Int) (s : Sess) (inp : RefInput) : Sess × Option RefStop :=
  let s0 := { s with busy := false }
  if interval ≤ 0 then ({ s0 with running := false }, some RefStop.intervalOff)
  else if inp.bodyInterrupt then (s0, some RefStop.interrupted)
  else if s0.driver ∧ ¬ s0.dontRefresh ∧ interval < (inp.now : Int) - (s0.timer : Int) then
    let s1 := { s0 with busy := true, timer := inp.now }
    match inp.refreshResult with
    | Except.ok _ => ({ s1 with busy := false }, none)
    | Except.error _ =>
      let s2 := sessionCloseFromRefresher s1 inp.closeOk
      if inp.restartSleepInterrupt then (s2, some RefStop.interrupted)
      else ((sessionStartEffect s2 interval inp.now inp.restartResult).1, none)
  else ({ s0 with busy := false }, none)

/-- After the loop (chatgpt_api.py 1005-1006, ms_copilot_api.py 1046-1047):
`self._refresher_thread = None; self._refresher_busy = False`. -/
def refresherFinish (s : Sess) : Sess := { s with refresherThread := false, busy := false }

/-- The refresher loop over a finite window of modelled cycles.  Returns the
final session state and why the loop stopped (`none`: the window ended with
the loop still alive). -/
def refresherRun (interval : Int) (s : Sess) :
    List RefInput → Sess × Option RefStop
  | [] => (s, none)
  | inp :: rest =>
    if ¬ s.running then (refresherFinish s, some RefStop.runningCleared)
    else
      match (refresherIter interval s inp).2 with
      | some r => (refresherFinish (refresherIter interval s inp).1, some r)
      | none => refresherRun interval (refresherIter interval s inp).1 rest

/-! ### Interleaving model of the pause protocol (claim C4)

`_refresher_pause_resume(pause=True)` runs on the foreground thread while
`_refresher` runs on the background thread; both touch
`_refresher_dont_refresh_flag` (`paused`) and `_refresher_busy` (`busy`).
Each thread is a small program over the shared flags; `prRun` interleaves
single steps. -/

structure PRState where
  /-- Models `self._refresher_dont_refresh_flag` -/
  paused : Bool
  /-- Models `self._refresher_busy` -/
  busy : Bool
  /-- foreground position in `_refresher_pause_resume(pause=True)`:
  0 = polling `busy` (the `while self._refresher_busy` loop),
  1 = wait finished, about to set the pause flag, 2 = returned -/
  fgPC : Nat
  /-- the background thread is inside a refresh cycle (busy section) -/
  bgInCycle : Bool
  /-- a refresh cycle began while the foreground was at position 1, i.e.
  after its busy-wait completed and before it set the pause flag -/
  raceStarted : Bool
  deriving Repr, DecidableEq

/-- One foreground step of the `pause=True` branch (chatgpt_api.py 901-907,
ms_copilot_api.py 953-959): while `busy` holds, keep polling; once `busy`
is observed clear, the NEXT action sets `dont_refresh = True`. -/
def prFgStep (s : PRState) : PRState :=
  match s.fgPC with
  | 0 => if s.busy then s else { s with fgPC := 1 }
  | 1 => { s with paused := true, fgPC := 2 }
  | _ => s

/-- One background step of the refresher cycle (chatgpt_api.py 942-969):
inside a cycle, finish it and clear `busy`; otherwise, when not paused (and
the driver/timer guard, abstracted as eligible, holds), begin a refresh by
setting `busy`.  `raceStarted` records a cycle beginning while the
foreground sits between its busy-wait and its flag write. -/
def prBgStep (s : PRState) : PRState :=
  if s.bgInCycle then { s with busy := false, bgInCycle := false }
  else if ¬ s.paused then
    { s with busy := true, bgInCycle := true,
             raceStarted := s.raceStarted || decide (s.fgPC = 1) }
  else s

/-- Interleaved run: `true` schedules a foreground step, `false` a
background step. -/
def prRun : List Bool → PRState → PRState
  | [], s => s
  | side :: rest, s => prRun rest (if side then prFgStep s else prBgStep s)

/-- State at the entry of `_refresher_pause_resume(pause=True)`: not paused,
no refresh in progress, foreground at the busy-wait. -/
def prInit : PRState :=
  { paused := false, busy := false, fgPC := 0, bgInCycle := false, raceStarted := false }

/-! ### Claim statements (formalisations of the spec's wording, to be
compared with the embedded code) -/

def msObsDefault : MsObs := Except.error ("")

def cgSnapDefault : CgSnap :=
  { finished := false, response := "", conversationId := "", messageId := "" }

/-- The settled classification holds at every poll from `j` to `i`. -/
def settledHeld (obs : List MsObs) (j i : Nat) : Prop :=
  ∀ k, k ≤ i → j ≤ k → msFlag (obs.getD k msObsDefault) = true

/-- No settled run inside `obs` lasts the full grace window: every
continuously-settled span of polls covers less than `_WAIT_AFTER_FINISH`
seconds. -/
def noLongRun (obs : List MsObs) : Prop :=
  ∀ i, i < obs.length → ∀ j, j ≤ i → settledHeld obs j i →
    msTime (obs.getD i msObsDefault) - msTime (obs.getD j msObsDefault) < WAIT_AFTER_FINISH

/-- Invariant carried by the debounce proof: whenever every poll of `obs` up
to position `i` is settled, the time of poll `i` is still within the grace
window measured from `timer`. -/
def msTimerInv (obs : List MsObs) (timer : Nat) : Prop :=
  ∀ i, i < obs.length → (∀ k, k ≤ i → msFlag (obs.getD k msObsDefault) = true) →
    msTime (obs.getD i msObsDefault) - timer < WAIT_AFTER_FINISH

/-- Claim C1, MS Copilot half: if settlement never holds for the full grace
window, no snapshot has `finished=true`. -/
def c1ClaimMs : Prop :=
  ∀ (convId : String) (obs : List MsObs) (appetite : Option Nat), noLongRun obs →
    ∀ snap ∈ (msLoop convId 0 obs appetite).1, snap.finished = false

/-- Claim C1, ChatGPT half (a consequence of any positive grace window): a
poll at which the settled classification (`cgClassify` returning `ok true`)
appears for the first time — here, the very first poll — cannot yield
`finished=true`, since settlement has held for zero time. -/
def c1ClaimCg : Prop :=
  ∀ (convId : String) (m : CgMsg) (rest : List CgObs) (appetite : Option Nat),
    cgClassify m = Except.ok true →
    ((cgLoop convId (some m :: rest) appetite).1.headD cgSnapDefault).finished = false

/-- Claim C1 as stated: the debounce holds for both backend adapters. -/
def c1Claim : Prop := c1ClaimMs ∧ c1ClaimCg

/-- Session-fatal errors named by the spec (§7). -/
def sessionFatal (e : String) : Prop :=
  e = ("SessionLost") ∨ e = ("InitializationFailed")

/-- Claim C2 as stated: a session-fatal error raised by a foreground
operation is recorded into `lastError` and moves the status to `Failed`. -/
def c2Claim : Prop :=
  ∀ (s : MWState) (e : String), sessionFatal e →
    ((mwAsk s (Except.error e)).1.status = STATUS_FAILED ∧
      (mwAsk s (Except.error e)).1.error = some e) ∧
    ((mwResponseStop s (Except.error e)).1.status = STATUS_FAILED ∧
      (mwResponseStop s (Except.error e)).1.error = some e) ∧
    ((mwDeleteConversation s (Except.error e)).1.status = STATUS_FAILED ∧
      (mwDeleteConversation s (Except.error e)).1.error = some e)

/-- Claim C3's invariant: `lastError` is present only while the status is
`Failed`. -/
def lastErrorOnlyWhenFailed (s : MWState) : Prop :=
  s.error ≠ none → s.status = STATUS_FAILED

/-- Claim C4 as stated: the pause path first sets the paused flag (its first
step from the entry state already sets it), and therefore no refresh cycle
can begin between the flag write and the completion of the busy-wait. -/
def c4Claim : Prop :=
  (prFgStep prInit).paused = true ∧
  ∀ sched : List Bool, (prRun sched prInit).raceStarted = false

/-- Claim C7 as stated: on every exit of a started `response_read_stream`,
in both adapters, the refresher pause flag is left cleared and the
refresher timer is reset to the current time, whatever the poll
observations, the consumer behaviour, and the outcome of the MS Copilot
`finally`-block page reload. -/
def c7Claim : Prop :=
  ∀ (s : Sess) (convId : String) (now : Nat) (cgObs : List CgObs)
    (msObs : List MsObs) (appetite : Option Nat) (cleanup : MsFinallyOutcome),
    (cgResponseReadStream { s with driver := true } convId now cgObs appetite).2.2.dontRefresh
        = false ∧
    (cgResponseReadStream { s with driver := true } convId now cgObs appetite).2.2.timer
        = now ∧
    (msResponseReadStream { s with driver := true } convId now msObs appetite
        cleanup).2.2.dontRefresh = false ∧
    (msResponseReadStream { s with driver := true } convId now msObs appetite
        cleanup).2.2.timer = now

/-! ### Concrete demonstration inputs (used by witnesses/counterexamples) -/

/-- A settled ChatGPT message: container class starts with `markdown`. -/
def demoCgMarkdown : CgMsg :=
  { messageId := "msg-1", className := "markdown prose", innerHtml := "hello" }

/-- A streaming ChatGPT message. -/
def demoCgStreaming : CgMsg :=
  { messageId := "msg-1", className := "result-streaming markdown", innerHtml := "hel" }

/-- MS Copilot polls: settled at t=10 and still settled at t=13, which is
the full 3-second grace window. -/
def demoMsFinishObs : List MsObs :=
  [Except.ok { t := 10, finishedFlag := true, finishedErr := false,
               text := "hello", suggestions := [] },
   Except.ok { t := 13, finishedFlag := true, finishedErr := false,
               text := "hello", suggestions := [] }]

/-- A single settled MS Copilot poll: settlement held for zero seconds, so
`noLongRun` holds. -/
def demoMsShortObs : List MsObs :=
  [Except.ok { t := 10, finishedFlag := true, finishedErr := false,
               text := "hello", suggestions := [] }]

/-- The snapshot `msLoop` yields for the single poll of `demoMsShortObs`. -/
def demoMsSnap : MsSnap :=
  { finished := false, conversationId := "c", response := "hello", suggestions := [] }

/-- A session with a live driver and an armed refresher. -/
def demoSess : Sess :=
  { driver := true, refresherThread := true, running := true,
    dontRefresh := false, busy := false, timer := 0, conversationNew := false }

/-- Like `demoSess`, but the last `prompt_send` created a new conversation
(`self._conversation_new` is set), so the stream's `finally` block will run
the rename-and-reload path. -/
def demoSessNewConv : Sess :=
  { driver := true, refresherThread := true, running := true,
    dontRefresh := false, busy := false, timer := 0, conversationNew := true }

/-- A refresher cycle where the refresh succeeds and nothing is
interrupted. -/
def demoRefOk : RefInput :=
  { now := 100, refreshResult := Except.ok (), bodyInterrupt := false,
    closeOk := true, restartSleepInterrupt := false,
    restartResult := Except.ok () }

/-! ## Theorems -/

/-- C9: the integer status codes are exactly -1 = Failed,
0 = NotInitialized, 1 = Initializing, 2 = Idle, 3 = Busy, 4 = Stopping,
and for every one of the six codes — including the negative Failed code,
which Python's negative indexing sends to the last list entry — the
`STATUS_TO_STR[status]` lookup used by `/api/status` returns the matching
status name. -/
theorem c9_status_codes :
    STATUS_FAILED = -1 ∧ STATUS_NOT_INITIALIZED = 0 ∧ STATUS_INITIALIZING = 1 ∧
    STATUS_IDLE = 2 ∧ STATUS_BUSY = 3 ∧ STATUS_STOPPING = 4 ∧
    pyListGet STATUS_TO_STR STATUS_FAILED = some ("Failed") ∧
    pyListGet STATUS_TO_STR STATUS_NOT_INITIALIZED = some ("Not initialized") ∧
    pyListGet STATUS_TO_STR STATUS_INITIALIZING = some ("Initializing") ∧
    pyListGet STATUS_TO_STR STATUS_IDLE = some ("Idle") ∧
    pyListGet STATUS_TO_STR STATUS_BUSY = some ("Busy") ∧
    pyListGet STATUS_TO_STR STATUS_STOPPING = some ("Stopping") := by
  decide

/-- C5: `ask`, `response_stop`, and `delete_conversation` each set the
status to `Busy` on entry and restore `Idle` on completion, whether the
body succeeds or raises. -/
theorem c5_busy_idle : ∀ (s : MWState) (body : Except String Unit),
    (mwAskEnter s).status = STATUS_BUSY ∧
    (mwStopEnter s).status = STATUS_BUSY ∧
    (mwDeleteEnter s).status = STATUS_BUSY ∧
    (mwAsk s body).1.status = STATUS_IDLE ∧
    (mwResponseStop s body).1.status = STATUS_IDLE ∧
    (mwDeleteConversation s body).1.status = STATUS_IDLE := by
  intro s body
  refine ⟨rfl, rfl, rfl, rfl, ?_, rfl⟩
  cases body <;> rfl

/-- C10: when `session_start` raises from its body, it resets the driver to
`None` before propagating the exception, so a subsequent `session_start` is
not rejected for an unclosed previous session. -/
theorem c10_session_start_reset :
    ∀ (s : Sess) (interval : Int) (now : Nat) (e : String)
      (interval2 : Int) (now2 : Nat),
    (sessionStartEffect { s with driver := false } interval now (Except.error e)).1.driver
        = false ∧
    (sessionStartEffect { s with driver := false } interval now (Except.error e)).2
        = Except.error e ∧
    (sessionStartEffect
        (sessionStartEffect { s with driver := false } interval now (Except.error e)).1
        interval2 now2 (Except.ok ())).2 = Except.ok () := by
  intro s interval now e interval2 now2
  refine ⟨rfl, rfl, ?_⟩
  show (sessionStartEffect _ _ _ _).2 = _
  simp only [sessionStartEffect]
  split
  · rename_i h; exact absurd h (by exact Bool.false_ne_true)
  · split <;> rfl

/-- C2 fails on the code: `ask` raising the session-fatal error
`SessionLost` on an idle instance leaves the status `Idle` (not `Failed`)
and records nothing into `lastError`. -/
theorem c2_counterexample : ¬ c2Claim := by
  intro h
  have h2 := (h mwNew ("SessionLost") (Or.inl rfl)).1.1
  exact absurd h2 (by decide)

/-- C2 amended: when a foreground operation (`ask`, `response_stop`,
`delete_conversation`) raises any error — session-fatal or not — the
Module Instance restores the status to `Idle`, leaves `lastError`
untouched, and re-raises the error to the caller; errors are recorded into
`lastError` with a transition to `Failed` only by `initialize`/`close`. -/
theorem c2_amended : ∀ (s : MWState) (e : String),
    (mwAsk s (Except.error e)).1.status = STATUS_IDLE ∧
    (mwAsk s (Except.error e)).1.error = s.error ∧
    (mwAsk s (Except.error e)).2 = Except.error e ∧
    (mwResponseStop s (Except.error e)).1.status = STATUS_IDLE ∧
    (mwResponseStop s (Except.error e)).1.error = s.error ∧
    (mwResponseStop s (Except.error e)).2 = Except.error e ∧
    (mwDeleteConversation s (Except.error e)).1.status = STATUS_IDLE ∧
    (mwDeleteConversation s (Except.error e)).1.error = s.error ∧
    (mwDeleteConversation s (Except.error e)).2 = Except.error e ∧
    (mwInitialize s (Except.error e)).status = STATUS_FAILED ∧
    (mwInitialize s (Except.error e)).error = some e ∧
    (mwClose s (Except.error e)).status = STATUS_FAILED ∧
    (mwClose s (Except.error e)).error = some e := by
  intro s e
  exact ⟨rfl, rfl, rfl, rfl, rfl, rfl, rfl, rfl, rfl, rfl, rfl, rfl, rfl⟩

/-- C3 fails on the code: after a failed `initialize` followed by a
successful one, the status is `Idle` while the stale `lastError` is still
present — `self.error` is never cleared. -/
theorem c3_counterexample :
    ¬ lastErrorOnlyWhenFailed
      (mwInitialize (mwInitialize mwNew (Except.error ("InitializationFailed")))
        (Except.ok ())) := by
  unfold lastErrorOnlyWhenFailed
  decide

/-- C3 amended: `lastError` is recorded when `initialize` (or `close`)
fails, but no operation ever clears it; after a failed `initialize`
followed by a successful one the instance is `Idle` with the stale
`lastError` still present, so `lastError` being non-`None` does not imply
`status == Failed`. -/
theorem c3_amended : ∀ (s : MWState) (e : String),
    (mwInitialize (mwInitialize s (Except.error e)) (Except.ok ())).status
        = STATUS_IDLE ∧
    (mwInitialize (mwInitialize s (Except.error e)) (Except.ok ())).error = some e ∧
    (mwInitialize s (Except.ok ())).error = s.error := by
  intro s e
  exact ⟨rfl, rfl, rfl⟩

/-- C4 fails on the code: `_refresher_pause_resume(pause=True)` does not
set the paused flag first — its first step from the entry state is the
busy-wait poll, which leaves the flag clear; moreover the schedule
foreground-wait / refresher-begins / foreground-sets-flag makes a new
refresh cycle begin between the two steps. -/
theorem c4_counterexample : ¬ c4Claim := by
  intro h
  exact absurd h.1 (by decide)

/-- C4 amended: `_refresher_pause_resume(pause=True)` first busy-waits,
polling the busy flag until an in-progress refresh completes, and only then
sets the paused flag; consequently a new refresh cycle can begin between
the completion of the wait and the flag write — witnessed by an
interleaving that ends with the flag set while a refresh is in progress. -/
theorem c4_amended :
    (∀ s : PRState,
      prFgStep { s with fgPC := 0, busy := true } = { s with fgPC := 0, busy := true }) ∧
    (∀ s : PRState,
      prFgStep { s with fgPC := 0, busy := false } = { s with fgPC := 1, busy := false }) ∧
    (∀ s : PRState,
      prFgStep { s with fgPC := 1 } = { s with fgPC := 2, paused := true }) ∧
    ((prRun [true, false, true] prInit).paused = true ∧
      (prRun [true, false, true] prInit).busy = true ∧
      (prRun [true, false, true] prInit).raceStarted = true) := by
  refine ⟨fun s => rfl, fun s => rfl, fun s => rfl, by decide⟩

/-- C7 fails on the code: for the MS Copilot adapter, when the conversation
is new and the `finally`-block page reload raises (through the unguarded
`session_close`/`session_start` calls in `_load_or_refresh`'s retry
handler, ms_copilot_api.py 915-919), the resume at line 692 is skipped and
the refresher pause flag remains set. -/
theorem c7_counterexample : ¬ c7Claim := by
  intro h
  have h2 := (h demoSessNewConv ("c") 42 [] [] none
    (MsFinallyOutcome.raised ("Unable to load") false)).2.2.1
  exact absurd h2 (by decide)

/-- C7 amended: on every exit of ChatGPT's `response_read_stream` the
`finally` block leaves the pause flag cleared and the timer reset to the
current time (its `finally` only calls `_refresher_pause_resume`, which
cannot raise).  The same holds for MS Copilot whenever its `finally`-block
page reload does not raise — in particular always when the conversation is
not new; but when the conversation is new and the reload raises through
the unguarded session restart inside `_load_or_refresh`, the resume is
skipped: the pause flag remains set and the timer keeps its old value. -/
theorem c7_amended : ∀ (s : Sess) (convId : String) (now : Nat)
    (cgObs : List CgObs) (msObs : List MsObs) (appetite : Option Nat)
    (e : String) (driverAfter : Bool),
    (cgResponseReadStream { s with driver := true } convId now cgObs appetite).2.2.dontRefresh
        = false ∧
    (cgResponseReadStream { s with driver := true } convId now cgObs appetite).2.2.timer
        = now ∧
    (msResponseReadStream { s with driver := true } convId now msObs appetite
        MsFinallyOutcome.ok).2.2.dontRefresh = false ∧
    (msResponseReadStream { s with driver := true } convId now msObs appetite
        MsFinallyOutcome.ok).2.2.timer = now ∧
    (∀ cleanup : MsFinallyOutcome,
      (msResponseReadStream { s with driver := true, conversationNew := false } convId now
          msObs appetite cleanup).2.2.dontRefresh = false ∧
      (msResponseReadStream { s with driver := true, conversationNew := false } convId now
          msObs appetite cleanup).2.2.timer = now) ∧
    (msResponseReadStream { s with driver := true, conversationNew := true } convId now
        msObs appetite (MsFinallyOutcome.raised e driverAfter)).2.2.dontRefresh = true ∧
    (msResponseReadStream { s with driver := true, conversationNew := true } convId now
        msObs appetite (MsFinallyOutcome.raised e driverAfter)).2.2.timer = s.timer := by
  intro s convId now cgObs msObs appetite e driverAfter
  refine ⟨rfl, rfl, ?_, ?_, fun cleanup => ⟨rfl, rfl⟩, rfl, rfl⟩
  · cases hcn : s.conversationNew <;>
      simp [msResponseReadStream, refresherPauseResume, hcn]
  · cases hcn : s.conversationNew <;>
      simp [msResponseReadStream, refresherPauseResume, hcn]

/-- The no-long-run property restricts to the tail of the observation list. -/
theorem noLongRun_tail (o : MsObs) (rest : List MsObs) (h : noLongRun (o :: rest)) :
    noLongRun rest := by
  intro i hi j hj hheld
  have hheld2 : settledHeld (o :: rest) (j + 1) (i + 1) := by
    intro k hk hjk
    cases k with
    | zero => exact absurd hjk (by omega)
    | succ k2 =>
      have := hheld k2 (by omega) (by omega)
      simpa using this
  have hmain := h (i + 1) (by simpa using Nat.succ_lt_succ hi) (j + 1) (by omega) hheld2
  simpa using hmain

/-- When the head of the list is settled, the poll times of any all-settled
prefix of the tail stay within the grace window measured from the head's
poll time. -/
theorem msTimerInv_head (o : MsObs) (rest : List MsObs) (ho : msFlag o = true)
    (h : noLongRun (o :: rest)) : msTimerInv rest (msTime o) := by
  intro i hi hflags
  have hheld : settledHeld (o :: rest) 0 (i + 1) := by
    intro k hk _
    cases k with
    | zero => simpa using ho
    | succ k2 => simpa using hflags k2 (by omega)
  have hmain := h (i + 1) (by simpa using Nat.succ_lt_succ hi) 0 (by omega) hheld
  simpa using hmain

/-- The timer invariant restricts to the tail when the head is settled. -/
theorem msTimerInv_tail (o : MsObs) (rest : List MsObs) (timer : Nat)
    (ho : msFlag o = true) (h : msTimerInv (o :: rest) timer) :
    msTimerInv rest timer := by
  intro i hi hflags
  have hall : ∀ k, k ≤ i + 1 → msFlag ((o :: rest).getD k msObsDefault) = true := by
    intro k hk
    cases k with
    | zero => simpa using ho
    | succ k2 => simpa using hflags k2 (by omega)
  have hmain := h (i + 1) (by simpa using Nat.succ_lt_succ hi) hall
  simpa using hmain

/-- Debounce correctness of the MS Copilot reader loop: starting from any
timer that is either unset or within the window of the settled run in
progress, if no settled run in the remaining polls lasts the full grace
window, no yielded snapshot is finished. -/
theorem msLoop_grace (convId : String) :
    ∀ (obs : List MsObs) (timer : Nat) (appetite : Option Nat),
      (timer = 0 ∨ msTimerInv obs timer) → noLongRun obs →
      ∀ snap ∈ (msLoop convId timer obs appetite).1, snap.finished = false := by
  intro obs
  induction obs with
  | nil =>
    intro timer appetite _ _ snap hsnap
    simp [msLoop] at hsnap
  | cons o rest ih =>
    intro timer appetite hinv hnlr snap hsnap
    cases o with
    | error e => simp [msLoop] at hsnap
    | ok p =>
      have hfin : (msDebounce timer p.t (msFlag (Except.ok p))).2 = false := by
        cases hf : msFlag (Except.ok p) with
        | false => simp [msDebounce, hf]
        | true =>
          by_cases h0 : timer = 0
          · subst h0
            simp [msDebounce, hf, WAIT_AFTER_FINISH]
          · rcases hinv with h0' | hP
            · exact absurd h0' h0
            · have hflags0 : ∀ k, k ≤ 0 →
                  msFlag ((Except.ok p :: rest).getD k msObsDefault) = true := by
                intro k hk
                have hk0 : k = 0 := by omega
                subst hk0
                simpa using hf
              have hb := hP 0 (by simp) hflags0
              have hb2 : p.t - timer < WAIT_AFTER_FINISH := by simpa using hb
              have hd : (msDebounce timer p.t true).2
                  = decide (WAIT_AFTER_FINISH ≤ p.t - timer) := by
                simp [msDebounce, h0]
              rw [hd]
              simp only [decide_eq_false_iff_not]
              exact Nat.not_le.mpr hb2
      have hnext : (msDebounce timer p.t (msFlag (Except.ok p))).1 = 0 ∨
          msTimerInv rest (msDebounce timer p.t (msFlag (Except.ok p))).1 := by
        cases hf : msFlag (Except.ok p) with
        | false =>
          left
          by_cases h0 : timer = 0 <;> simp [msDebounce, hf, h0]
        | true =>
          by_cases h0 : timer = 0
          · right
            have hd : (msDebounce timer p.t true).1 = p.t := by
              simp [msDebounce, h0]
            rw [hd]
            have := msTimerInv_head (Except.ok p) rest hf hnlr
            simpa using this
          · rcases hinv with h0' | hP
            · exact absurd h0' h0
            · right
              have hd : (msDebounce timer p.t true).1 = timer := by
                simp [msDebounce, h0]
              rw [hd]
              exact msTimerInv_tail (Except.ok p) rest timer hf hP
      by_cases hsp : appetiteSpent appetite
      · simp [msLoop, hfin, hsp] at hsnap
        rw [hsnap]
      · simp [msLoop, hfin, hsp] at hsnap
        rcases hsnap with rfl | hmem
        · rfl
        · exact ih (msDebounce timer p.t (msFlag (Except.ok p))).1
            (appetiteNext appetite) hnext (noLongRun_tail _ _ hnlr) snap hmem

/-- C1 fails on the code: the ChatGPT reader has no grace window — on a
backend whose very first poll classifies as settled (class name
`markdown prose`), the first yielded snapshot already has `finished=true`,
although settlement has held for zero time. -/
theorem c1_counterexample : ¬ c1Claim := by
  intro h
  have h2 := h.2 ("c") demoCgMarkdown [] none (by rfl)
  exact absurd h2 (by decide)

/-- C1 amended: the debounce property holds for the MS Copilot adapter —
its reader never yields `finished=true` until the settled classification
has held continuously for the full `_WAIT_AFTER_FINISH` grace window, any
reversion resetting the timer — but not for the ChatGPT adapter, whose
reader yields `finished=true` immediately at the first poll classified as
settled, with no grace window. -/
theorem c1_amended :
    (∀ (convId : String) (obs : List MsObs) (appetite : Option Nat), noLongRun obs →
      ∀ snap ∈ (msLoop convId 0 obs appetite).1, snap.finished = false) ∧
    (∀ (convId : String) (m : CgMsg) (rest : List CgObs) (appetite : Option Nat),
      cgClassify m = Except.ok true →
      ((cgLoop convId (some m :: rest) appetite).1.headD cgSnapDefault).finished = true) := by
  constructor
  · intro convId obs appetite hnlr
    exact msLoop_grace convId obs 0 appetite (Or.inl rfl) hnlr
  · intro convId m rest appetite hcls
    simp [cgLoop, hcls, cgSnapOf]

/-- Witness for C1 amended: on the single-settled-poll trace
`demoMsShortObs` (which has no full-window settled run) the MS Copilot
reader yields only unfinished snapshots, while on a first settled poll the
ChatGPT reader immediately yields a finished one. -/
theorem c1_amended_witness :
    demoMsSnap.finished = false ∧
    ((cgLoop ("c") [some demoCgMarkdown] none).1.headD cgSnapDefault).finished = true := by
  constructor
  · exact c1_amended.1 ("c") demoMsShortObs none
      (by unfold noLongRun settledHeld; decide) demoMsSnap (by decide)
  · exact c1_amended.2 ("c") demoCgMarkdown [] none (by rfl)

/-- Shape of a ChatGPT stream run: the yielded snapshots contain exactly one
finished snapshot when the run completes normally and none otherwise, and on
normal completion the finished snapshot is the last one yielded. -/
theorem cgLoop_finished_count (convId : String) :
    ∀ (obs : List CgObs) (appetite : Option Nat),
      ((cgLoop convId obs appetite).1.countP (fun x => x.finished)
          = if (cgLoop convId obs appetite).2 = StreamExit.done then 1 else 0) ∧
      ((cgLoop convId obs appetite).2 = StreamExit.done →
        ((cgLoop convId obs appetite).1.getLast?).map (fun x => x.finished)
          = some true) := by
  intro obs
  induction obs with
  | nil => intro appetite; simp [cgLoop]
  | cons o rest ih =>
    intro appetite
    cases o with
    | none => simp [cgLoop]
    | some m =>
      cases hcls : cgClassify m with
      | error e => simp [cgLoop, hcls]
      | ok fin =>
        cases fin with
        | true => simp [cgLoop, hcls, cgSnapOf]
        | false =>
          by_cases hsp : appetiteSpent appetite
          · simp [cgLoop, hcls, hsp, cgSnapOf]
          · have ihr := ih (appetiteNext appetite)
            constructor
            · have h1 := ihr.1
              simp [cgLoop, hcls, hsp, cgSnapOf, List.countP_cons]
              exact h1
            · intro hdone
              have hd2 : (cgLoop convId rest (appetiteNext appetite)).2
                  = StreamExit.done := by
                simp [cgLoop, hcls, hsp] at hdone
                exact hdone
              have h2 := ihr.2 hd2
              have hgoal : Option.map (fun x => x.finished)
                  ((cgSnapOf convId false m
                    :: (cgLoop convId rest (appetiteNext appetite)).1).getLast?)
                  = some true := by
                cases hr : (cgLoop convId rest (appetiteNext appetite)).1 with
                | nil => rw [hr] at h2; simp at h2
                | cons b t =>
                  rw [hr] at h2
                  rw [List.getLast?_cons_cons]
                  exact h2
              simpa [cgLoop, hcls, hsp] using hgoal

/-- Shape of an MS Copilot stream run, for any starting debounce timer:
exactly one finished snapshot on normal completion, none otherwise, and the
finished snapshot is the last one yielded. -/
theorem msLoop_finished_count (convId : String) :
    ∀ (obs : List MsObs) (timer : Nat) (appetite : Option Nat),
      ((msLoop convId timer obs appetite).1.countP (fun x => x.finished)
          = if (msLoop convId timer obs appetite).2 = StreamExit.done then 1 else 0) ∧
      ((msLoop convId timer obs appetite).2 = StreamExit.done →
        ((msLoop convId timer obs appetite).1.getLast?).map (fun x => x.finished)
          = some true) := by
  intro obs
  induction obs with
  | nil => intro timer appetite; simp [msLoop]
  | cons o rest ih =>
    intro timer appetite
    cases o with
    | error e => simp [msLoop]
    | ok p =>
      cases hd : (msDebounce timer p.t (msFlag (Except.ok p))).2 with
      | true => simp [msLoop, hd]
      | false =>
        by_cases hsp : appetiteSpent appetite
        · simp [msLoop, hd, hsp]
        · have ihr := ih (msDebounce timer p.t (msFlag (Except.ok p))).1
            (appetiteNext appetite)
          constructor
          · have h1 := ihr.1
            simp [msLoop, hd, hsp, List.countP_cons]
            exact h1
          · intro hdone
            have hd2 : (msLoop convId (msDebounce timer p.t (msFlag (Except.ok p))).1
                rest (appetiteNext appetite)).2 = StreamExit.done := by
              simp [msLoop, hd, hsp] at hdone
              exact hdone
            have h2 := ihr.2 hd2
            have hgoal : ∀ (snap : MsSnap), Option.map (fun x => x.finished)
                ((snap :: (msLoop convId (msDebounce timer p.t (msFlag (Except.ok p))).1
                  rest (appetiteNext appetite)).1).getLast?)
                = some true := by
              intro snap
              cases hr : (msLoop convId (msDebounce timer p.t (msFlag (Except.ok p))).1
                  rest (appetiteNext appetite)).1 with
              | nil => rw [hr] at h2; simp at h2
              | cons b t =>
                rw [hr] at h2
                rw [List.getLast?_cons_cons]
                exact h2
            simpa [msLoop, hd, hsp] using hgoal _

/-- The MS Copilot reader passes the loop's snapshots through unchanged,
and its reported exit is either the loop's own exit or a
`failedInCleanup` replacing it when the `finally` block raised. -/
theorem msReadStream_parts (s : Sess) (convId : String) (now : Nat)
    (obs : List MsObs) (appetite : Option Nat) (cleanup : MsFinallyOutcome) :
    (msResponseReadStream { s with driver := true } convId now obs appetite cleanup).1
      = (msLoop convId 0 obs appetite).1 ∧
    ((msResponseReadStream { s with driver := true } convId now obs appetite cleanup).2.1
        = (msLoop convId 0 obs appetite).2 ∨
      ∃ e, (msResponseReadStream { s with driver := true } convId now obs appetite
          cleanup).2.1 = StreamExit.failedInCleanup e) := by
  cases hcn : s.conversationNew with
  | true =>
    cases cleanup with
    | ok => exact ⟨by simp [msResponseReadStream, refresherPauseResume, hcn],
        Or.inl (by simp [msResponseReadStream, refresherPauseResume, hcn])⟩
    | raised e d => exact ⟨by simp [msResponseReadStream, refresherPauseResume, hcn],
        Or.inr ⟨e, by simp [msResponseReadStream, refresherPauseResume, hcn]⟩⟩
  | false =>
    exact ⟨by simp [msResponseReadStream, refresherPauseResume, hcn],
      Or.inl (by simp [msResponseReadStream, refresherPauseResume, hcn])⟩

/-- C6: for a stream run that completes normally, the yielded sequence
contains exactly one `finished=true` snapshot, it is the last element, and
the generator terminates with it; a run aborted by an unrecoverable read
error yields no `finished=true` snapshot — in both adapters, for every
outcome of the MS Copilot cleanup block. -/
theorem c6_stream_termination :
    ∀ (s : Sess) (convId : String) (now : Nat) (cgObs : List CgObs)
      (msObs : List MsObs) (a1 a2 : Option Nat) (cleanup : MsFinallyOutcome),
    ((cgResponseReadStream { s with driver := true } convId now cgObs a1).2.1
        = StreamExit.done →
      (cgResponseReadStream { s with driver := true } convId now cgObs a1).1.countP
          (fun x => x.finished) = 1 ∧
      ((cgResponseReadStream { s with driver := true } convId now cgObs a1).1.getLast?).map
          (fun x => x.finished) = some true) ∧
    (∀ e, (cgResponseReadStream { s with driver := true } convId now cgObs a1).2.1
        = StreamExit.failed e →
      (cgResponseReadStream { s with driver := true } convId now cgObs a1).1.countP
          (fun x => x.finished) = 0) ∧
    ((msResponseReadStream { s with driver := true } convId now msObs a2 cleanup).2.1
        = StreamExit.done →
      (msResponseReadStream { s with driver := true } convId now msObs a2 cleanup).1.countP
          (fun x => x.finished) = 1 ∧
      ((msResponseReadStream { s with driver := true } convId now msObs a2
          cleanup).1.getLast?).map (fun x => x.finished) = some true) ∧
    (∀ e, (msResponseReadStream { s with driver := true } convId now msObs a2 cleanup).2.1
        = StreamExit.failed e →
      (msResponseReadStream { s with driver := true } convId now msObs a2 cleanup).1.countP
          (fun x => x.finished) = 0) := by
  intro s convId now cgObs msObs a1 a2 cleanup
  have hcg := cgLoop_finished_count convId cgObs a1
  have hms := msLoop_finished_count convId msObs 0 a2
  have hparts := msReadStream_parts s convId now msObs a2 cleanup
  refine ⟨fun hdone => ?_, fun e hfail => ?_, fun hdone => ?_, fun e hfail => ?_⟩
  · have hdone2 : (cgLoop convId cgObs a1).2 = StreamExit.done := hdone
    constructor
    · show (cgLoop convId cgObs a1).1.countP (fun x => x.finished) = 1
      rw [hcg.1, if_pos hdone2]
    · show ((cgLoop convId cgObs a1).1.getLast?).map (fun x => x.finished) = some true
      exact hcg.2 hdone2
  · have hfail2 : (cgLoop convId cgObs a1).2 = StreamExit.failed e := hfail
    show (cgLoop convId cgObs a1).1.countP (fun x => x.finished) = 0
    rw [hcg.1, if_neg (by rw [hfail2]; intro hx; cases hx)]
  · rcases hparts.2 with hex | ⟨e2, hex⟩
    · have hdone2 : (msLoop convId 0 msObs a2).2 = StreamExit.done := by
        rw [← hex]; exact hdone
      constructor
      · rw [hparts.1, hms.1, if_pos hdone2]
      · rw [hparts.1]; exact hms.2 hdone2
    · rw [hdone] at hex; simp at hex
  · rcases hparts.2 with hex | ⟨e2, hex⟩
    · have hfail2 : (msLoop convId 0 msObs a2).2 = StreamExit.failed e := by
        rw [← hex]; exact hfail
      rw [hparts.1, hms.1, if_neg (by rw [hfail2]; intro hx; cases hx)]
    · rw [hfail] at hex; simp at hex

/-- Witness for C6: a ChatGPT run that settles at its first poll and an MS
Copilot run that settles over the full grace window each complete normally
with exactly one finished snapshot. -/
theorem c6_stream_termination_witness :
    (cgResponseReadStream demoSess ("c") 42 [some demoCgMarkdown] none).1.countP
        (fun x => x.finished) = 1 ∧
    (msResponseReadStream demoSess ("c") 42 demoMsFinishObs none
        MsFinallyOutcome.ok).1.countP (fun x => x.finished) = 1 := by
  have h := c6_stream_termination demoSess ("c") 42 [some demoCgMarkdown]
    demoMsFinishObs none none MsFinallyOutcome.ok
  exact ⟨(h.1 (by rfl)).1, (h.2.2.1 (by rfl)).1⟩

/-- C8: a single exception during a refresh cycle never terminates the
refresher loop.  First conjunct: with a positive interval, a due refresh
that fails makes the iteration close the session (running flag untouched)
and attempt `session_start` again, and the loop continues (no stop).
Second conjunct: an iteration stops the loop only when the configured
interval is non-positive or on an interrupt.  Third conjunct: while the
running flag is set, a non-stopping iteration just continues the loop. -/
theorem c8_refresher_survives :
    (∀ (n : Nat) (s : Sess) (e : String) (closeOk : Bool)
        (restartResult : Except String Unit),
      refresherIter ((n : Int) + 1)
          { s with driver := true, dontRefresh := false, timer := 0 }
          { now := n + 2, refreshResult := Except.error e, bodyInterrupt := false,
            closeOk := closeOk, restartSleepInterrupt := false,
            restartResult := restartResult }
        = ((sessionStartEffect
              (sessionCloseFromRefresher
                { s with driver := true, dontRefresh := false,
                         timer := n + 2, busy := true } closeOk)
              ((n : Int) + 1) (n + 2) restartResult).1, none)) ∧
    (∀ (interval : Int) (s : Sess) (inp : RefInput) (r : RefStop),
      (refresherIter interval s inp).2 = some r →
        (r = RefStop.intervalOff ∧ interval ≤ 0) ∨
        (r = RefStop.interrupted ∧
          (inp.bodyInterrupt = true ∨ inp.restartSleepInterrupt = true))) ∧
    (∀ (interval : Int) (s : Sess) (inp : RefInput) (rest : List RefInput),
      s.running = true → (refresherIter interval s inp).2 = none →
        refresherRun interval s (inp :: rest)
          = refresherRun interval (refresherIter interval s inp).1 rest) := by
  refine ⟨?_, ?_, ?_⟩
  · intro n s e closeOk restartResult
    have h1 : ¬ ((n : Int) + 1 ≤ 0) := by omega
    have h2 : (n : Int) + 1 < ((n + 2 : Nat) : Int) - ((0 : Nat) : Int) := by
      push_cast; omega
    simp only [refresherIter]
    rw [if_neg h1, if_neg (by simp), if_pos ⟨trivial, by simp, h2⟩, if_neg (by simp)]
  · intro interval s inp r h
    simp only [refresherIter] at h
    split_ifs at h with hA hB hC hD
    · simp at h
      exact Or.inl ⟨h.symm, hA⟩
    · simp at h
      exact Or.inr ⟨h.symm, Or.inl hB⟩
    · cases hr : inp.refreshResult with
      | ok u => rw [hr] at h; simp at h
      | error e2 =>
        rw [hr] at h
        simp at h
        exact Or.inr ⟨h.symm, Or.inr hD⟩
    · cases hr : inp.refreshResult with
      | ok u => rw [hr] at h; simp at h
      | error e2 => rw [hr] at h; simp at h
  · intro interval s inp rest hrun hnone
    simp [refresherRun, hrun, hnone]

/-- Witness for C8: with the interval configured to 0 an iteration stops
with `intervalOff`, and with interval 5 and a due, successful refresh the
loop simply continues to the next cycle. -/
theorem c8_refresher_survives_witness :
    ((RefStop.intervalOff = RefStop.intervalOff ∧ (0 : Int) ≤ 0) ∨
      (RefStop.intervalOff = RefStop.interrupted ∧
        (demoRefOk.bodyInterrupt = true ∨ demoRefOk.restartSleepInterrupt = true))) ∧
    refresherRun 5 demoSess [demoRefOk]
      = refresherRun 5 (refresherIter 5 demoSess demoRefOk).1 [] := by
  constructor
  · exact c8_refresher_survives.2.1 0 demoSess demoRefOk RefStop.intervalOff (by rfl)
  · exact c8_refresher_survives.2.2 5 demoSess demoRefOk [] (by rfl) (by rfl)

end Lmao
